import Mathlib

/-! Shallow embedding of `bot.py` from the repository *what-are-we-eating-today*,
a Slack food-polling bot.  The bot posts a daily poll, tallies the reactions
(`check`), picks a winning option (`which_vote`), selects the lowest-balance
voter from the wiebetaaltwat ledger (`wbw_get_lowest_member`) and later posts
a reminder (`remind`).

Modelling conventions:
  * Python exceptions become `Except PyError`.
  * `random.choice l` becomes `randomChoice k l = l.get? (k % l.length)` for
    an injected index `k`; each textual call site of `random.choice` gets its
    own index.
  * DynamoDB items become `StoredRecord` values; a table is an association
    list keyed by `(ChannelId, Date)` and `put_item` replaces any existing
    item with the same key (DynamoDB `put_item` semantics).
  * Slack and wiebetaaltwat HTTP calls become entries in an `Effect` trace;
    DynamoDB reads are pure lookups on the given store snapshot.
  * Message timestamps are `Int` (the code compares `float(timestamp)`
    against `time.time() - ONE_DAY`).
  * The `EAT_REACTIONS` table interpolates the formatted current date into
    the hospital entry, so the table takes that string as a parameter.
-/

namespace WAWET

/-- Payment classification of a food option (`class FoodType` in `bot.py`). -/
inductive FoodType
  | pay_advance_bike
  | pay_advance_deliver
  | pay_self
  deriving DecidableEq, Repr

/-- One value of the `EAT_REACTIONS` table: human description, instruction
text and payment type. -/
structure OptionInfo where
  desc : String
  instr : String
  type : FoodType
  deriving DecidableEq, Repr

/-- Constant `ONE_DAY = 60 * 60 * 24` (seconds). -/
def ONE_DAY : Int := 60 * 60 * 24

/-- The `EAT_REACTIONS` table of `bot.py`, in insertion order.
`hospitalDate` is the `datetime.datetime.today().strftime("%A-%-d-%B")`
fragment interpolated into the hospital entry. -/
def EAT_REACTIONS (hospitalDate : String) : List (String × OptionInfo) :=
  [ ("ramen",
     { desc := "Chinese"
     , instr := "Don\x27t forget to order plain rice for Simone (if she joins us)\nOrder from here: http://www.lotusnijmegen.nl/pages/acties.php"
     , type := FoodType.pay_advance_bike })
  , ("fries",
     { desc := "Snackbar"
     , instr := "The person who pays chooses a snackbar to order from."
     , type := FoodType.pay_advance_deliver })
  , ("pizza",
     { desc := "Pizza"
     , instr := "Check the menu at: https://www.pizzeriarotana.nl\nDestination: 6525EC Toernooiveld 212, order at ~17:30"
     , type := FoodType.pay_advance_deliver })
  , ("dragon_face",
     { desc := "Wok"
     , instr := "Check the menu at: https://nijmegen.iwokandgo.nl\nDon\x27t forget to ask for chopsticks!\nDestination: 6525EC Toernooiveld 212, order at ~17:30"
     , type := FoodType.pay_advance_deliver })
  , ("knife_fork_plate",
     { desc := "<https://www.ru.nl/facilitairbedrijf/horeca/refter/menu-soep-week/|at the Refter>"
     , instr := "Everyone pays for themselves at the Refter restaurant, and there are multiple meals to choose there.\nCheck for the daily menu: https://www.ru.nl/facilitairbedrijf/horeca/refter/menu-soep-week/"
     , type := FoodType.pay_self })
  , ("hospital",
     { desc := "<https://www.radboudumc.nl/patientenzorg/voorzieningen/eten-en-drinken/menu-van-de-dag/" ++ hospitalDate ++ "/|at the Hospital>"
     , instr := "Everyone pays for themselves at the hospital restaurant, and there are multiple meals to choose there.\nCheck for the daily menu: https://www.radboudumc.nl/patientenzorg/voorzieningen/eten-en-drinken/menu-van-de-dag/" ++ hospitalDate ++ "/"
     , type := FoodType.pay_self })
  ]

/-- Table `HOME_REACTIONS`: label and description of the two non-food reactions. -/
def HOME_REACTIONS : List (String × String) :=
  [ ("house", "I\x27m eating at home")
  , ("x", "I\x27m not going today") ]

/-- The keys of `EAT_REACTIONS` (they do not depend on the date fragment). -/
def eatKeys : List String :=
  ["ramen", "fries", "pizza", "dragon_face", "knife_fork_plate", "hospital"]

/-- Test `reaction["name"] in EAT_REACTIONS.keys()`. -/
def isEatReaction (name : String) : Bool := eatKeys.contains name

/-- Python dict lookup `EAT_REACTIONS[label]`; `none` models the `KeyError`
raised when `label` is not a key. -/
def lookupInfo (hospitalDate : String) (label : String) : Option OptionInfo :=
  ((EAT_REACTIONS hospitalDate).find? (fun p => p.1 == label)).map Prod.snd

/-- One entry of the reaction list returned by Slack `reactions.get`:
emoji name, reacting user ids, and total count. -/
structure Reaction where
  name : String
  users : List String
  count : Nat
  deriving DecidableEq, Repr

/-- One entry of the `votes` list built in `check`:
`{"reaction": reaction["name"], "count": reaction["count"]}`. -/
structure Vote where
  reaction : String
  count : Nat
  deriving DecidableEq, Repr

/-- The `voted_slack_ids` aggregation in `check` (lines 312-315): the union of
`reaction["users"]` over the reactions whose name is a key of
`EAT_REACTIONS`. -/
def votedSlackIds (reactions : List Reaction) : Finset String :=
  reactions.foldl
    (fun acc r => if isEatReaction r.name then acc ∪ r.users.toFinset else acc) ∅

/-- The `votes` list comprehension in `check` (lines 317-321): the
`(reaction, count)` pairs of the reactions whose name is a key of
`EAT_REACTIONS` and whose count is strictly greater than 1. -/
def votesOf (reactions : List Reaction) : List Vote :=
  (reactions.filter (fun r => isEatReaction r.name && decide (r.count > 1))).map
    (fun r => { reaction := r.name, count := r.count })

/-- Python exceptions raised (directly or by builtins) in `bot.py`. -/
inductive PyError
  | runtimeError (msg : String)
  | valueError (msg : String)
  | typeError (msg : String)
  | keyError (key : String)
  | exception (msg : String)
  deriving DecidableEq, Repr

/-- Model of `random.choice l` for an injected random index `k`: the element at
`k % l.length`, `none` when `l` is empty (Python raises `IndexError`). -/
def randomChoice (k : Nat) (l : List α) : Option α := l.get? (k % l.length)

/-- A row of the `SlackVotes` DynamoDB table (key fields aside): primary poll
message timestamp `Msg`, optional decided `Choice`, optional `BeeMsg`
timestamp of the tally announcement. -/
structure StoredRecord where
  msg : Int
  choice : Option String
  beeMsg : Option Int
  deriving DecidableEq, Repr

/-- Python truthiness of `item["Item"].get("Choice", {}).get("S")`:
`None` and the empty string are falsy. -/
def choiceTruthy : Option String → Bool
  | none => false
  | some c => !c.isEmpty

/-- Value of `max(votes, key=lambda i: i["count"])["count"]` for a nonempty list
(counts are `Nat`, so seeding the fold with `0` computes the same maximum). -/
def maxCount (l : List Vote) : Nat := (l.map Vote.count).foldr max 0

/-- Embedding of `which_vote` (lines 249-274).  `rec` is the row the function reads back
from DynamoDB, `votes` the optional argument (`none` on the reminder path),
`now` the value of `time.time()`, and `k1`, `k2` the indices of the two
textual `random.choice` call sites.  The second call site sits under
`if not choice:` and only runs when the first drawn reaction name is empty. -/
def which_vote (k1 k2 : Nat) (now : Int) (rec : StoredRecord)
    (votes : Option (List Vote)) : Except PyError String :=
  if rec.msg < now - ONE_DAY then
    .error (.runtimeError "Last vote was too long ago")
  else if choiceTruthy rec.choice then
    .ok (rec.choice.getD "")
  else
    match votes with
    | none => .error (.typeError "max() arg must not be None")
    | some [] => .error (.valueError "max() arg is an empty sequence")
    | some l =>
      let highest := maxCount l
      let tied := l.filter (fun v => v.count == highest)
      match randomChoice k1 tied with
      | none => .error (.valueError "Cannot choose from an empty sequence")
      | some w =>
        if w.reaction.isEmpty then
          match randomChoice k2 tied with
          | none => .error (.valueError "Cannot choose from an empty sequence")
          | some w2 => .ok w2.reaction
        else .ok w.reaction

/-- A member entry of the wiebetaaltwat balance response: member id,
nickname, and signed balance in minor currency units (`fractional`). -/
structure WbwMember where
  id : String
  nickname : String
  balance : Int
  deriving DecidableEq, Repr

/-- An element of the `joining_members` list in `wbw_get_lowest_member`. -/
structure Joining where
  name : String
  balance : Int
  deriving DecidableEq, Repr

/-- Embedding of `slack_mapping` (lines 203-205): the chained `.get` lookups return the
mapped Slack id, or `None` when any level is missing — no exception is ever
raised here, so the `except KeyError` handler at the call site (lines
238-241) is unreachable and its `warnings.warn` never fires. -/
def slack_mapping (table : List (String × String)) (wbwId : String) : Option String :=
  (table.find? (fun p => p.1 == wbwId)).map Prod.snd

/-- The `joining_members` accumulation in `wbw_get_lowest_member` (lines
230-241): iterate `reversed(member_totals)`, keep the members whose mapped
Slack id is in `voted` (an unmapped member yields `None`, and
`None in voted` is false, so the member is skipped — silently, see
`slack_mapping`). -/
def joiningMembers (table : List (String × String)) (voted : Finset String)
    (members : List WbwMember) : List Joining :=
  members.reverse.filterMap (fun m =>
    match slack_mapping table m.id with
    | some sid => if sid ∈ voted then some { name := m.nickname, balance := m.balance } else none
    | none => none)

/-- Value of `min(joining_members, key=lambda i: i["balance"])["balance"]` for a
nonempty list; `0` is a placeholder for the empty list (Python raises). -/
def minBalance : List Joining → Int
  | [] => 0
  | j :: js => js.foldl (fun m x => min m x.balance) j.balance

/-- Embedding of `wbw_get_lowest_member` (lines 208-246) after the HTTP fetches: build
`joining_members`, take the minimum balance, and pick uniformly among the
members at that minimum (`k` indexes the `random.choice`). -/
def wbw_get_lowest_member (k : Nat) (table : List (String × String))
    (voted : Finset String) (members : List WbwMember) : Except PyError String :=
  let joining := joiningMembers table voted members
  match joining with
  | [] => .error (.valueError "min() arg is an empty sequence")
  | j :: js =>
    let lowest := minBalance (j :: js)
    match randomChoice k ((j :: js).filter (fun x => x.balance == lowest)) with
    | none => .error (.valueError "Cannot choose from an empty sequence")
    | some x => .ok x.name

/-- Observable side effects of one invocation: Slack API calls, DynamoDB
writes, and the wiebetaaltwat fetch (`wbw_login` plus the balance GET,
folded into one `ledgerFetch` entry).  DynamoDB reads are modelled as pure
lookups on the store snapshot and do not appear in the trace. -/
inductive Effect
  | reactionsGet (channel : String) (timestamp : Int)
  | postMessage (channel : String) (text : String)
  | addReaction (channel : String) (timestamp : Int) (name : String)
  | putRecord (channelId date : String) (rec : StoredRecord)
  | ledgerFetch
  deriving DecidableEq, Repr

deriving instance DecidableEq for Except

/-- Result of one workflow invocation: final outcome and effect trace in
execution order. -/
structure DoResult where
  result : Except PyError Unit
  effects : List Effect
  deriving DecidableEq, Repr

/-- The `SlackVotes` table, keyed by `(ChannelId, Date)`. -/
def Store := List ((String × String) × StoredRecord)

/-- DynamoDB `put_item`: inserts the item, replacing any existing item with
the same primary key. -/
def put_item (store : Store) (key : String × String) (rec : StoredRecord) : Store :=
  (key, rec) :: store.filter (fun e => decide (e.1 ≠ key))

/-- DynamoDB `get_item` on the `SlackVotes` table. -/
def get_item (store : Store) (key : String × String) : Option StoredRecord :=
  (store.find? (fun e => decide (e.1 = key))).map Prod.snd

/-- The poll text posted by `post_vote`: the `<!everyone>` question followed
by one `desc: :label:` line per entry of `ALL_REACTIONS`
(`EAT_REACTIONS` then `HOME_REACTIONS`, in insertion order). -/
def pollMessage (hospitalDate : String) : String :=
  "<!everyone> What do you want to eat today?\n" ++
    String.intercalate "\n"
      (((EAT_REACTIONS hospitalDate).map (fun p => (p.1, p.2.desc)) ++ HOME_REACTIONS).map
        (fun p => p.2 ++ ": :" ++ p.1 ++ ":"))

/-- The labels of `ALL_REACTIONS = {**EAT_REACTIONS, **HOME_REACTIONS}`. -/
def allKeys : List String := eatKeys ++ ["house", "x"]

/-- Embedding of `post_vote` (lines 159-183): post the poll message, store the row for
`(message.channel, today)` — a plain `put_item`, which replaces any existing
row for that key — then seed one reaction per option.  `resp` is the Slack
response to `chat.postMessage`: `none` when it carries no `ts` (the code
then raises), otherwise the `(channel, ts)` it reports. -/
def post_vote (store : Store) (hospitalDate : String) (channel today : String)
    (resp : Option (String × Int)) : Store × DoResult :=
  match resp with
  | none =>
    (store,
     { result := .error (.runtimeError "Invalid response")
     , effects := [Effect.postMessage channel (pollMessage hospitalDate)] })
  | some (respChannel, respTs) =>
    (put_item store (respChannel, today) { msg := respTs, choice := none, beeMsg := none },
     { result := .ok ()
     , effects := Effect.postMessage channel (pollMessage hospitalDate)
         :: Effect.putRecord respChannel today { msg := respTs, choice := none, beeMsg := none }
         :: allKeys.map (Effect.addReaction respChannel respTs) })

/-- The announcement text built in `check` (lines 326-329): headline plus
instructions, plus the bee invitation for the two pay-in-advance types. -/
def tallyMessage (info : OptionInfo) : String :=
  "<!everyone> We\x27re eating " ++ info.desc ++ "! " ++ info.instr ++
    (if info.type = FoodType.pay_advance_deliver ∨ info.type = FoodType.pay_advance_bike then
      "\nEverybody that wants to join for dinner, adds a :bee: response to this message."
    else "")

/-- The reminder headline built in `remind` (line 352). -/
def remindMessage (info : OptionInfo) : String :=
  "<!everyone> Reminder: We\x27re eating " ++ info.desc ++ "! " ++ info.instr

/-- Embedding of `check` (lines 302-344).  Inputs: the stored row for
`(channel, today)` (`none` models a missing row, on which `last_poll`
raises), the reaction list Slack returns for the primary message, the clock
`now`, the `chat.postMessage` response `resp` (as in `post_vote`), and the
random indices for `which_vote`.  Steps: fetch reactions; silently stop when
a `bomb` reaction is present; build `voted_slack_ids` (unused afterwards) and
`votes`; run `which_vote` (which re-reads the same stored row); look up the
option info; post the announcement; store the row again with `Choice` and
`BeeMsg` set. -/
def check (k1 k2 : Nat) (now : Int) (hospitalDate : String) (channel today : String)
    (item : Option StoredRecord) (reactions : List Reaction)
    (resp : Option (String × Int)) : DoResult :=
  match item with
  | none => { result := .error (.exception "No item found"), effects := [] }
  | some rec =>
    let eff0 := [Effect.reactionsGet channel rec.msg]
    if reactions.any (fun r => r.name == "bomb") then
      { result := .ok (), effects := eff0 }
    else
      let _voted := votedSlackIds reactions
      let votes := votesOf reactions
      match which_vote k1 k2 now rec (some votes) with
      | .error e => { result := .error e, effects := eff0 }
      | .ok choice =>
        match lookupInfo hospitalDate choice with
        | none => { result := .error (.keyError choice), effects := eff0 }
        | some info =>
          let message := tallyMessage info
          let eff1 := eff0 ++ [Effect.postMessage channel message]
          match resp with
          | none => { result := .error (.runtimeError "Invalid response"), effects := eff1 }
          | some (respChannel, respTs) =>
            { result := .ok ()
            , effects := eff1 ++
                [Effect.putRecord respChannel today
                  { msg := rec.msg, choice := some choice, beeMsg := some respTs }] }

/-- The `voted_slack_ids` union over `bee` reactions in `remind`
(lines 354-358). -/
def beeUsers (reactions : List Reaction) : Finset String :=
  reactions.foldl
    (fun acc r => if r.name == "bee" then acc ∪ r.users.toFinset else acc) ∅

/-- Tail of `remind` from the ledger call on (lines 369-376): fetch the
balances, pick the lowest-standing voter, append the payer line for the two
pay-in-advance types (the literal condition is
`info["type"] == ... and remind`, where `remind` is the enclosing function
object and hence always truthy), and post. -/
def remindFinish (k3 : Nat) (channel : String) (info : OptionInfo) (base : String)
    (voted : Finset String) (table : List (String × String)) (members : List WbwMember)
    (effs : List Effect) : DoResult :=
  let effs := effs ++ [Effect.ledgerFetch]
  match wbw_get_lowest_member k3 table voted members with
  | .error e => { result := .error e, effects := effs }
  | .ok lowest =>
    let message := base ++
      (if info.type = FoodType.pay_advance_bike then
        "\n" ++ lowest ++ " has the honour to :bike: today"
      else if info.type = FoodType.pay_advance_deliver then
        "\n" ++ lowest ++ " has the honour to pay for this :money_with_wings:"
      else "")
    { result := .ok (), effects := effs ++ [Effect.postMessage channel message] }

/-- Embedding of `remind` (lines 347-376).  Inputs as for `check`, plus the reaction
lists Slack returns for the bee message and for the primary message, the
Slack-id mapping table, and the ledger members.  Steps: read the stored row
(`last_poll_and_bee` raises `KeyError` when `BeeMsg` is absent); run
`which_vote` with no votes argument; build the reminder headline; collect
bee reactors; when there are none, fall back to the primary message
(stopping silently on a `bomb` reaction); pick the payer; post. -/
def remind (k1 k2 k3 : Nat) (now : Int) (hospitalDate : String) (channel : String)
    (item : Option StoredRecord) (beeReactions primReactions : List Reaction)
    (table : List (String × String)) (members : List WbwMember) : DoResult :=
  match item with
  | none => { result := .error (.exception "No item found"), effects := [] }
  | some rec =>
    match rec.beeMsg with
    | none => { result := .error (.keyError "BeeMsg"), effects := [] }
    | some beeTs =>
      match which_vote k1 k2 now rec none with
      | .error e => { result := .error e, effects := [] }
      | .ok choice =>
        match lookupInfo hospitalDate choice with
        | none => { result := .error (.keyError choice), effects := [] }
        | some info =>
          let base := remindMessage info
          let eff1 := [Effect.reactionsGet channel beeTs]
          let beeVoted := beeUsers beeReactions
          if beeVoted = ∅ then
            let eff2 := eff1 ++ [Effect.reactionsGet channel rec.msg]
            if primReactions.any (fun r => r.name == "bomb") then
              { result := .ok (), effects := eff2 }
            else
              remindFinish k3 channel info base (votedSlackIds primReactions) table members eff2
          else
            remindFinish k3 channel info base beeVoted table members eff1

/-- The seeded reaction list of the no-quorum scenario: every option carries
only the bot reaction (count 1). -/
def seededReactions : List Reaction :=
  allKeys.map (fun n => { name := n, users := ["self"], count := 1 })

/-- A store already holding a decided poll for `("#general", "2020-01-01")`. -/
def store0 : Store :=
  [(("#general", "2020-01-01"), { msg := 111, choice := some "pizza", beeMsg := some 222 })]

/-! General lemmas -/

theorem eatKeys_eq_keys (d : String) : (EAT_REACTIONS d).map Prod.fst = eatKeys := rfl

theorem randomChoice_mem {α : Type} {l : List α} (h : l ≠ []) (k : Nat) :
    ∃ x ∈ l, randomChoice k l = some x := by
  have hlen : 0 < l.length := List.length_pos.mpr h
  have hk : k % l.length < l.length := Nat.mod_lt _ hlen
  exact ⟨l.get ⟨k % l.length, hk⟩, List.get_mem l _ _, List.get?_eq_get hk⟩

theorem randomChoice_eq_of_all {α : Type} {l : List α} {v : α} (h : l ≠ [])
    (hall : ∀ x ∈ l, x = v) (k : Nat) : randomChoice k l = some v := by
  obtain ⟨x, hx, hr⟩ := randomChoice_mem h k
  rw [hr, hall x hx]

theorem randomChoice_reach {α : Type} {l : List α} {x : α} (h : x ∈ l) :
    ∃ k : Nat, randomChoice k l = some x := by
  obtain ⟨⟨n, hn⟩, hget⟩ := List.mem_iff_get.mp h
  refine ⟨n, ?_⟩
  rw [randomChoice, Nat.mod_eq_of_lt hn, List.get?_eq_get hn, hget]

theorem maxCount_cons (v : Vote) (l : List Vote) :
    maxCount (v :: l) = max v.count (maxCount l) := rfl

theorem le_maxCount {l : List Vote} {v : Vote} (h : v ∈ l) : v.count ≤ maxCount l := by
  induction l with
  | nil => cases h
  | cons a t ih =>
    rcases List.mem_cons.mp h with rfl | h'
    · rw [maxCount_cons]; exact Nat.le_max_left _ _
    · rw [maxCount_cons]; exact le_trans (ih h') (Nat.le_max_right _ _)

theorem exists_maxCount {l : List Vote} (h : l ≠ []) :
    ∃ v ∈ l, v.count = maxCount l := by
  induction l with
  | nil => exact absurd rfl h
  | cons a t ih =>
    rcases List.eq_nil_or_concat t with rfl | _
    · exact ⟨a, List.mem_cons_self a [], by simp [maxCount]⟩
    · have ht : t ≠ [] := by rintro rfl; simp_all
      obtain ⟨v, hv, hvc⟩ := ih ht
      rcases le_total (maxCount t) a.count with hle | hle
      · exact ⟨a, List.mem_cons_self a t, by rw [maxCount_cons, Nat.max_eq_left hle]⟩
      · exact ⟨v, List.mem_cons_of_mem a hv, by rw [maxCount_cons, Nat.max_eq_right hle, hvc]⟩

theorem foldl_min_spec (js : List Joining) (a : Int) :
    js.foldl (fun m x => min m x.balance) a ≤ a
    ∧ (∀ x ∈ js, js.foldl (fun m x => min m x.balance) a ≤ x.balance)
    ∧ (js.foldl (fun m x => min m x.balance) a = a
        ∨ ∃ x ∈ js, js.foldl (fun m x => min m x.balance) a = x.balance) := by
  induction js generalizing a with
  | nil => exact ⟨le_refl a, by simp, Or.inl rfl⟩
  | cons b bs ih =>
    obtain ⟨h1, h2, h3⟩ := ih (min a b.balance)
    refine ⟨le_trans h1 (min_le_left _ _), ?_, ?_⟩
    · intro x hx
      rcases List.mem_cons.mp hx with rfl | hx'
      · exact le_trans h1 (min_le_right _ _)
      · exact h2 x hx'
    · rcases h3 with h | ⟨x, hx, hxe⟩
      · rcases min_choice a b.balance with hm | hm
        · exact Or.inl (by rw [List.foldl_cons, h, hm])
        · exact Or.inr ⟨b, List.mem_cons_self b bs, by rw [List.foldl_cons, h, hm]⟩
      · exact Or.inr ⟨x, List.mem_cons_of_mem b hx, hxe⟩

theorem minBalance_le {l : List Joining} {x : Joining} (h : x ∈ l) :
    minBalance l ≤ x.balance := by
  match l with
  | [] => cases h
  | j :: js =>
    rcases List.mem_cons.mp h with rfl | h'
    · exact (foldl_min_spec js x.balance).1
    · exact (foldl_min_spec js j.balance).2.1 x h'

theorem exists_minBalance {l : List Joining} (h : l ≠ []) :
    ∃ x ∈ l, x.balance = minBalance l := by
  match l with
  | [] => exact absurd rfl h
  | j :: js =>
    rcases (foldl_min_spec js j.balance).2.2 with he | ⟨x, hx, hxe⟩
    · exact ⟨j, List.mem_cons_self j js, he.symm⟩
    · exact ⟨x, List.mem_cons_of_mem j hx, hxe.symm⟩

theorem mem_votedSlackIds_aux (rs : List Reaction) (acc : Finset String) (u : String) :
    (u ∈ rs.foldl
        (fun acc r => if isEatReaction r.name then acc ∪ r.users.toFinset else acc) acc) ↔
      u ∈ acc ∨ ∃ r ∈ rs, isEatReaction r.name = true ∧ u ∈ r.users := by
  induction rs generalizing acc with
  | nil => simp
  | cons r rs ih =>
    rw [List.foldl_cons]
    by_cases h : isEatReaction r.name
    · rw [if_pos h, ih]
      simp only [Finset.mem_union, List.mem_toFinset, List.exists_mem_cons_iff, h]
      tauto
    · rw [if_neg h, ih]
      simp only [List.exists_mem_cons_iff]
      have : ¬ (isEatReaction r.name = true) := h
      tauto

theorem mem_votedSlackIds (rs : List Reaction) (u : String) :
    u ∈ votedSlackIds rs ↔ ∃ r ∈ rs, isEatReaction r.name = true ∧ u ∈ r.users := by
  rw [votedSlackIds, mem_votedSlackIds_aux]
  simp

theorem mem_votesOf (rs : List Reaction) (v : Vote) :
    v ∈ votesOf rs ↔
      ∃ r ∈ rs, isEatReaction r.name = true ∧ 1 < r.count ∧
        v = { reaction := r.name, count := r.count } := by
  simp only [votesOf, List.mem_map, List.mem_filter, Bool.and_eq_true, decide_eq_true_eq]
  constructor
  · rintro ⟨r, ⟨hr, he, hc⟩, rfl⟩
    exact ⟨r, hr, he, hc, rfl⟩
  · rintro ⟨r, hr, he, hc, rfl⟩
    exact ⟨r, ⟨hr, he, hc⟩, rfl⟩

theorem which_vote_stale {k1 k2 : Nat} {now : Int} {rec : StoredRecord}
    {votes : Option (List Vote)} (h : rec.msg < now - ONE_DAY) :
    which_vote k1 k2 now rec votes = .error (.runtimeError "Last vote was too long ago") := by
  unfold which_vote
  rw [if_pos h]

theorem which_vote_decided {k1 k2 : Nat} {now : Int} {rec : StoredRecord}
    {votes : Option (List Vote)} (hfresh : ¬ rec.msg < now - ONE_DAY)
    (h : choiceTruthy rec.choice = true) :
    which_vote k1 k2 now rec votes = .ok (rec.choice.getD "") := by
  unfold which_vote
  rw [if_neg hfresh, if_pos h]

theorem which_vote_compute {k1 k2 : Nat} {now : Int} {rec : StoredRecord}
    (hfresh : ¬ rec.msg < now - ONE_DAY) (hch : choiceTruthy rec.choice = false)
    {l : List Vote} (hl : l ≠ []) :
    which_vote k1 k2 now rec (some l) =
      (match randomChoice k1 (l.filter (fun v => v.count == maxCount l)) with
       | none => .error (.valueError "Cannot choose from an empty sequence")
       | some w =>
         if w.reaction.isEmpty then
           match randomChoice k2 (l.filter (fun v => v.count == maxCount l)) with
           | none => .error (.valueError "Cannot choose from an empty sequence")
           | some w2 => .ok w2.reaction
         else .ok w.reaction) := by
  obtain ⟨a, t, rfl⟩ := List.exists_cons_of_ne_nil hl
  unfold which_vote
  rw [if_neg hfresh, if_neg (by simp [hch])]

theorem mem_tied {l : List Vote} {x : Vote} :
    x ∈ l.filter (fun v => v.count == maxCount l) ↔ x ∈ l ∧ x.count = maxCount l := by
  simp [List.mem_filter]

theorem tied_ne_nil {l : List Vote} (hl : l ≠ []) :
    l.filter (fun v => v.count == maxCount l) ≠ [] := by
  obtain ⟨v, hv, hvc⟩ := exists_maxCount hl
  exact List.ne_nil_of_mem (mem_tied.mpr ⟨hv, hvc⟩)

/-! Claim theorems -/

/-- Claim C1 — the aggregation step of `check` over the reaction list of the
primary poll message: the voter-identity set is exactly the union of the
user ids over the reactions whose label is a food option (so the home and
not-coming labels and the abort marker `bomb` are excluded because they are
not keys of `EAT_REACTIONS`), and the vote list holds exactly the food
reactions whose count is strictly greater than 1 (count 1, the bot seed, is
excluded). -/
theorem check_aggregation_spec (reactions : List Reaction) :
    (∀ u : String, u ∈ votedSlackIds reactions ↔
        ∃ r ∈ reactions, isEatReaction r.name = true ∧ u ∈ r.users)
    ∧ (∀ v : Vote, v ∈ votesOf reactions ↔
        ∃ r ∈ reactions, isEatReaction r.name = true ∧ 1 < r.count ∧
          v = { reaction := r.name, count := r.count })
    ∧ isEatReaction "house" = false ∧ isEatReaction "x" = false
    ∧ isEatReaction "bomb" = false :=
  ⟨mem_votedSlackIds reactions, mem_votesOf reactions, by decide, by decide, by decide⟩

/-- Witness for `check_aggregation_spec`: a human vote on `ramen` lands in
the voter set and in the qualifying-vote list. -/
theorem check_aggregation_spec_witness :
    "u1" ∈ votedSlackIds [{ name := "ramen", users := ["self", "u1"], count := 2 }]
    ∧ ({ reaction := "ramen", count := 2 } : Vote) ∈
        votesOf [{ name := "ramen", users := ["self", "u1"], count := 2 }] :=
  ⟨((check_aggregation_spec
        [{ name := "ramen", users := ["self", "u1"], count := 2 }]).1 "u1").mpr
      ⟨{ name := "ramen", users := ["self", "u1"], count := 2 }, by decide, by decide,
        by decide⟩,
    ((check_aggregation_spec
        [{ name := "ramen", users := ["self", "u1"], count := 2 }]).2.1
        { reaction := "ramen", count := 2 }).mpr
      ⟨{ name := "ramen", users := ["self", "u1"], count := 2 }, by decide, by decide,
        by decide, rfl⟩⟩

/-- Claim C2 — winner selection in `which_vote` for a nonempty vote list with
no stored decision (and a fresh poll): the result is the reaction of some
vote whose count is the maximum; when the maximum is attained by a single
vote the result does not depend on the random indices; and every vote
attaining the maximum is a possible outcome for some random index. -/
theorem which_vote_winner_spec (k1 k2 : Nat) (now : Int) (rec : StoredRecord)
    (l : List Vote) (hne : l ≠ []) (hfresh : ¬ rec.msg < now - ONE_DAY)
    (hch : choiceTruthy rec.choice = false) :
    (∃ w ∈ l, w.count = maxCount l ∧ (∀ v ∈ l, v.count ≤ w.count) ∧
        which_vote k1 k2 now rec (some l) = .ok w.reaction)
    ∧ ((∀ v ∈ l, ∀ w ∈ l, v.count = maxCount l → w.count = maxCount l → v = w) →
        ∀ j1 j2 : Nat,
          which_vote j1 j2 now rec (some l) = which_vote k1 k2 now rec (some l))
    ∧ (∀ w ∈ l, w.count = maxCount l →
        ∃ j : Nat, which_vote j j now rec (some l) = .ok w.reaction) := by
  have htied := tied_ne_nil hne
  refine ⟨?_, ?_, ?_⟩
  · obtain ⟨w1, hw1, hr1⟩ := randomChoice_mem htied k1
    rw [which_vote_compute hfresh hch hne, hr1]
    obtain ⟨hw1l, hw1c⟩ := mem_tied.mp hw1
    by_cases hemp : w1.reaction.isEmpty
    · obtain ⟨w2, hw2, hr2⟩ := randomChoice_mem htied k2
      obtain ⟨hw2l, hw2c⟩ := mem_tied.mp hw2
      refine ⟨w2, hw2l, hw2c, fun v hv => hw2c ▸ le_maxCount hv, ?_⟩
      simp [hemp, hr2]
    · refine ⟨w1, hw1l, hw1c, fun v hv => hw1c ▸ le_maxCount hv, ?_⟩
      simp [hemp]
  · intro huniq j1 j2
    obtain ⟨v, hv, hvc⟩ := exists_maxCount hne
    have hall : ∀ x ∈ l.filter (fun v => v.count == maxCount l), x = v := by
      intro x hx
      obtain ⟨hxl, hxc⟩ := mem_tied.mp hx
      exact huniq x hxl v hv hxc hvc
    have hres : ∀ i1 i2 : Nat, which_vote i1 i2 now rec (some l) = .ok v.reaction := by
      intro i1 i2
      rw [which_vote_compute hfresh hch hne,
        randomChoice_eq_of_all htied hall i1]
      by_cases hemp : v.reaction.isEmpty
      · simp [hemp, randomChoice_eq_of_all htied hall i2]
      · simp [hemp]
    rw [hres j1 j2, hres k1 k2]
  · intro w hw hwc
    obtain ⟨j, hj⟩ := randomChoice_reach (mem_tied.mpr ⟨hw, hwc⟩)
    refine ⟨j, ?_⟩
    rw [which_vote_compute hfresh hch hne, hj]
    by_cases hemp : w.reaction.isEmpty
    · simp [hemp, hj]
    · simp [hemp]

/-- Witness for `which_vote_winner_spec`: scenario A, `ramen` has three
reactions and is the unique vote with count above 1. -/
theorem which_vote_winner_spec_witness :
    ([({ reaction := "ramen", count := 3 } : Vote)] : List Vote) ≠ []
    ∧ ¬ (1000 : Int) < 1000 - ONE_DAY
    ∧ choiceTruthy none = false
    ∧ ∃ w ∈ [({ reaction := "ramen", count := 3 } : Vote)],
        w.count = maxCount [{ reaction := "ramen", count := 3 }] ∧
        (∀ v ∈ [({ reaction := "ramen", count := 3 } : Vote)], v.count ≤ w.count) ∧
        which_vote 0 0 1000 { msg := 1000, choice := none, beeMsg := none }
          (some [{ reaction := "ramen", count := 3 }]) = .ok w.reaction :=
  ⟨by decide, by decide, by decide,
    (which_vote_winner_spec 0 0 1000 { msg := 1000, choice := none, beeMsg := none }
      [{ reaction := "ramen", count := 3 }] (by decide) (by decide) (by decide)).1⟩

theorem mem_joiningMembers {table : List (String × String)} {voted : Finset String}
    {members : List WbwMember} {x : Joining} :
    x ∈ joiningMembers table voted members ↔
      ∃ m ∈ members, (∃ sid, slack_mapping table m.id = some sid ∧ sid ∈ voted) ∧
        x = { name := m.nickname, balance := m.balance } := by
  simp only [joiningMembers, List.mem_filterMap, List.mem_reverse]
  constructor
  · rintro ⟨m, hm, hx⟩
    rcases hmap : slack_mapping table m.id with _ | sid <;> simp only [hmap] at hx
    · cases hx
    · split_ifs at hx with hv
      cases hx
      exact ⟨m, hm, ⟨sid, hmap, hv⟩, rfl⟩
  · rintro ⟨m, hm, ⟨sid, hmap, hv⟩, rfl⟩
    exact ⟨m, hm, by simp only [hmap, if_pos hv]⟩

theorem wbw_compute {k : Nat} {table : List (String × String)} {voted : Finset String}
    {members : List WbwMember} (hne : joiningMembers table voted members ≠ []) :
    wbw_get_lowest_member k table voted members =
      (match randomChoice k ((joiningMembers table voted members).filter
          (fun x => x.balance == minBalance (joiningMembers table voted members))) with
       | none => .error (.valueError "Cannot choose from an empty sequence")
       | some x => .ok x.name) := by
  obtain ⟨j, js, he⟩ := List.exists_cons_of_ne_nil hne
  unfold wbw_get_lowest_member
  rw [he]

theorem mem_tiedMin {l : List Joining} {x : Joining} :
    x ∈ l.filter (fun x => x.balance == minBalance l) ↔
      x ∈ l ∧ x.balance = minBalance l := by
  simp [List.mem_filter]

theorem tiedMin_ne_nil {l : List Joining} (hl : l ≠ []) :
    l.filter (fun x => x.balance == minBalance l) ≠ [] := by
  obtain ⟨v, hv, hvc⟩ := exists_minBalance hl
  exact List.ne_nil_of_mem (mem_tiedMin.mpr ⟨hv, hvc⟩)

/-- Claim C4 — payer selection in `wbw_get_lowest_member` for a nonempty
eligible set: the eligible members are exactly the ledger members whose
mapped Slack id lies in the voter set; the result is the display name of an
eligible member whose balance is the minimum; with a unique minimum the
result does not depend on the random index; and every member at the minimum
is a possible outcome. -/
theorem wbw_lowest_member_spec (k : Nat) (table : List (String × String))
    (voted : Finset String) (members : List WbwMember)
    (hne : joiningMembers table voted members ≠ []) :
    (∀ x : Joining, x ∈ joiningMembers table voted members ↔
        ∃ m ∈ members, (∃ sid, slack_mapping table m.id = some sid ∧ sid ∈ voted) ∧
          x = { name := m.nickname, balance := m.balance })
    ∧ (∃ j ∈ joiningMembers table voted members,
        j.balance = minBalance (joiningMembers table voted members) ∧
        (∀ x ∈ joiningMembers table voted members, j.balance ≤ x.balance) ∧
        wbw_get_lowest_member k table voted members = .ok j.name)
    ∧ ((∀ x ∈ joiningMembers table voted members,
          ∀ y ∈ joiningMembers table voted members,
          x.balance = minBalance (joiningMembers table voted members) →
          y.balance = minBalance (joiningMembers table voted members) → x = y) →
        ∀ j' : Nat, wbw_get_lowest_member j' table voted members =
          wbw_get_lowest_member k table voted members)
    ∧ (∀ x ∈ joiningMembers table voted members,
        x.balance = minBalance (joiningMembers table voted members) →
        ∃ j' : Nat, wbw_get_lowest_member j' table voted members = .ok x.name) := by
  have htied := tiedMin_ne_nil hne
  refine ⟨fun x => mem_joiningMembers, ?_, ?_, ?_⟩
  · obtain ⟨w, hw, hr⟩ := randomChoice_mem htied k
    obtain ⟨hwl, hwc⟩ := mem_tiedMin.mp hw
    refine ⟨w, hwl, hwc, fun x hx => hwc ▸ minBalance_le hx, ?_⟩
    rw [wbw_compute hne, hr]
  · intro huniq j'
    obtain ⟨v, hv, hvc⟩ := exists_minBalance hne
    have hall : ∀ x ∈ (joiningMembers table voted members).filter
        (fun x => x.balance == minBalance (joiningMembers table voted members)), x = v := by
      intro x hx
      obtain ⟨hxl, hxc⟩ := mem_tiedMin.mp hx
      exact huniq x hxl v hv hxc hvc
    rw [wbw_compute hne, wbw_compute hne,
      randomChoice_eq_of_all htied hall j', randomChoice_eq_of_all htied hall k]
  · intro x hx hxc
    obtain ⟨j', hj'⟩ := randomChoice_reach (mem_tiedMin.mpr ⟨hx, hxc⟩)
    refine ⟨j', ?_⟩
    rw [wbw_compute hne, hj']

/-- Witness for `wbw_lowest_member_spec`: scenario C, two mapped voters tied
at balance -500; the selected payer is one of the two. -/
theorem wbw_lowest_member_spec_witness :
    joiningMembers [("w1", "u1"), ("w2", "u2")] {"u1", "u2"}
        [{ id := "w1", nickname := "Alice", balance := -500 },
         { id := "w2", nickname := "Bob", balance := -500 }] ≠ []
    ∧ ∃ j ∈ joiningMembers [("w1", "u1"), ("w2", "u2")] {"u1", "u2"}
        [{ id := "w1", nickname := "Alice", balance := -500 },
         { id := "w2", nickname := "Bob", balance := -500 }],
        j.balance = minBalance (joiningMembers [("w1", "u1"), ("w2", "u2")] {"u1", "u2"}
          [{ id := "w1", nickname := "Alice", balance := -500 },
           { id := "w2", nickname := "Bob", balance := -500 }]) ∧
        (∀ x ∈ joiningMembers [("w1", "u1"), ("w2", "u2")] {"u1", "u2"}
          [{ id := "w1", nickname := "Alice", balance := -500 },
           { id := "w2", nickname := "Bob", balance := -500 }], j.balance ≤ x.balance) ∧
        wbw_get_lowest_member 0 [("w1", "u1"), ("w2", "u2")] {"u1", "u2"}
          [{ id := "w1", nickname := "Alice", balance := -500 },
           { id := "w2", nickname := "Bob", balance := -500 }] = .ok j.name :=
  ⟨by decide,
    (wbw_lowest_member_spec 0 [("w1", "u1"), ("w2", "u2")] {"u1", "u2"}
      [{ id := "w1", nickname := "Alice", balance := -500 },
       { id := "w2", nickname := "Bob", balance := -500 }] (by decide)).2.1⟩

/-- Counterexample to claim C3 as stated: a poll record whose decided option is
set (`"pizza"`) but whose primary message is 25 hours old.  The invocation
does not return the stored option — the staleness guard fires first and the
call raises instead (`which_vote` lines 259-263 check staleness before the
stored choice). -/
theorem decided_record_stale_cex :
    (({ msg := 10000, choice := some "pizza", beeMsg := none } : StoredRecord).choice
        = some "pizza")
    ∧ (({ msg := 10000, choice := some "pizza", beeMsg := none } : StoredRecord).msg
        < 100000 - ONE_DAY)
    ∧ which_vote 0 0 100000 { msg := 10000, choice := some "pizza", beeMsg := none }
        (some [{ reaction := "ramen", count := 5 }]) =
      .error (.runtimeError "Last vote was too long ago") :=
  ⟨rfl, by decide, rfl⟩

/-- Claim C3, amended — for every poll record whose decided option is already
set *and whose primary message is within the 24-hour staleness window*,
`which_vote` returns the stored option unchanged for every vote list and
every random draw (no recomputation from reactions), and every record
written back by a tally (`check`) carries that same stored option, so the
decision is never overwritten and a reminder repeats it regardless of the
current reaction counts. -/
theorem which_vote_reuses_decision (now : Int) (rec : StoredRecord) (c : String)
    (hfresh : ¬ rec.msg < now - ONE_DAY) (hc : rec.choice = some c)
    (hne : c.isEmpty = false) :
    (∀ (k1 k2 : Nat) (votes : Option (List Vote)),
        which_vote k1 k2 now rec votes = .ok c)
    ∧ (∀ (k1 k2 : Nat) (hospitalDate channel today : String)
        (reactions : List Reaction) (resp : Option (String × Int))
        (ch d : String) (r : StoredRecord),
        Effect.putRecord ch d r ∈
          (check k1 k2 now hospitalDate channel today (some rec) reactions resp).effects →
        r.choice = some c) := by
  have htr : choiceTruthy rec.choice = true := by
    rw [hc]
    simp [choiceTruthy, hne]
  have hok : ∀ (k1 k2 : Nat) (votes : Option (List Vote)),
      which_vote k1 k2 now rec votes = .ok c := by
    intro k1 k2 votes
    rw [which_vote_decided hfresh htr, hc]
    rfl
  refine ⟨hok, ?_⟩
  intro k1 k2 hospitalDate channel today reactions resp ch d r h
  simp only [check, hok] at h
  split_ifs at h with hb
  · simp at h
  · rcases hlook : lookupInfo hospitalDate c with _ | info <;> simp only [hlook] at h
    · simp at h
    · rcases resp with _ | ⟨rc, rt⟩ <;> simp at h
      obtain ⟨-, -, hr⟩ := h
      rw [hr]

/-- Witness for `which_vote_reuses_decision`: a fresh decided record returns
its stored choice for an arbitrary vote list and random indices. -/
theorem which_vote_reuses_decision_witness :
    ¬ (({ msg := 100, choice := some "pizza", beeMsg := none } : StoredRecord).msg
        < 100 - ONE_DAY)
    ∧ which_vote 3 4 100 { msg := 100, choice := some "pizza", beeMsg := none }
        (some [{ reaction := "ramen", count := 7 }]) = .ok "pizza" :=
  ⟨by decide,
    (which_vote_reuses_decision 100 { msg := 100, choice := some "pizza", beeMsg := none }
      "pizza" (by decide) rfl rfl).1 3 4 (some [{ reaction := "ramen", count := 7 }])⟩

/-- Claim C5 — evaluation of `check` at the failing input: every option holds
only the bot seed reaction (count 1), no decision is stored, and the poll is
fresh.  The qualifying-vote list is empty, and the tally dies with the
uncaught `ValueError` that `max()` raises on an empty sequence: *no* message
is posted (the only effect is the reactions fetch) and no decision is
persisted.  The repository test suite instead expects the apology text
"No technicie this week? :(" to be posted
(`test_check_sends_sad_message_when_nobody_voted`). -/
theorem check_noquorum_uncaught :
    votesOf seededReactions = []
    ∧ check 0 0 1000 "d" "#general" "2020-01-01"
        (some { msg := 1000, choice := none, beeMsg := none }) seededReactions
        (some ("#general", 7)) =
      { result := .error (.valueError "max() arg is an empty sequence")
      , effects := [Effect.reactionsGet "#general" 1000] } :=
  ⟨rfl, rfl⟩

/-- Counterexample to claim C6 as stated: a 25-hour-old poll whose reaction
list contains the abort marker.  The tally does *not* fail with the
staleness error — the `bomb` short-circuit in `check` (lines 308-310) runs
before `which_vote` is ever called, so the invocation returns silently. -/
theorem stale_bomb_tally_cex :
    (({ msg := 10000, choice := none, beeMsg := none } : StoredRecord).msg
        < 100000 - ONE_DAY)
    ∧ check 0 0 100000 "d" "#general" "2020-01-01"
        (some { msg := 10000, choice := none, beeMsg := none })
        [{ name := "bomb", users := [], count := 1 }] none =
      { result := .ok (), effects := [Effect.reactionsGet "#general" 10000] } :=
  ⟨by decide, rfl⟩

/-- Claim C6, amended — for every poll record older than 24 hours, `check`
fails with the staleness error before posting or persisting anything,
*provided the reaction list carries no abort marker* (the `bomb`
short-circuit precedes the staleness check); `remind` fails with the
staleness error before any side effect whenever the record has a `BeeMsg`
timestamp (`last_poll_and_bee` needs it before `which_vote` runs). -/
theorem stale_poll_guard (k1 k2 k3 : Nat) (now : Int)
    (hospitalDate channel today : String) (rec : StoredRecord)
    (hstale : rec.msg < now - ONE_DAY) :
    (∀ (reactions : List Reaction) (resp : Option (String × Int)),
        reactions.any (fun r => r.name == "bomb") = false →
        check k1 k2 now hospitalDate channel today (some rec) reactions resp =
          { result := .error (.runtimeError "Last vote was too long ago")
          , effects := [Effect.reactionsGet channel rec.msg] })
    ∧ (∀ (beeTs : Int) (beeReactions primReactions : List Reaction)
        (table : List (String × String)) (members : List WbwMember),
        rec.beeMsg = some beeTs →
        remind k1 k2 k3 now hospitalDate channel (some rec) beeReactions primReactions
          table members =
          { result := .error (.runtimeError "Last vote was too long ago")
          , effects := [] }) := by
  constructor
  · intro reactions resp hb
    simp only [check, hb, Bool.false_eq_true, if_false,
      which_vote_stale hstale]
  · intro beeTs beeReactions primReactions table members hbee
    simp only [remind, hbee, which_vote_stale hstale]

/-- Witness for `stale_poll_guard`: scenario D, a poll from 25 hours ago
(with a real vote and no abort marker) fails the tally with the staleness
error and posts nothing. -/
theorem stale_poll_guard_witness :
    (({ msg := 10000, choice := none, beeMsg := none } : StoredRecord).msg
        < 100000 - ONE_DAY)
    ∧ check 0 0 100000 "d" "#general" "2020-01-01"
        (some { msg := 10000, choice := none, beeMsg := none })
        [{ name := "ramen", users := ["self", "u1"], count := 2 }] none =
      { result := .error (.runtimeError "Last vote was too long ago")
      , effects := [Effect.reactionsGet "#general" 10000] } :=
  ⟨by decide,
    (stale_poll_guard 0 0 0 100000 "d" "#general" "2020-01-01"
      { msg := 10000, choice := none, beeMsg := none } (by decide)).1
      [{ name := "ramen", users := ["self", "u1"], count := 2 }] none (by decide)⟩

theorem get_put_same (store : Store) (key : String × String) (rec : StoredRecord) :
    get_item (put_item store key rec) key = some rec := by
  unfold get_item put_item
  rw [List.find?_cons_of_pos _ (by simp)]
  rfl

theorem find_filter_ne (store : Store) (key key' : String × String) (h : key' ≠ key) :
    (store.filter (fun e => decide (e.1 ≠ key))).find? (fun e => decide (e.1 = key')) =
      store.find? (fun e => decide (e.1 = key')) := by
  induction store with
  | nil => rfl
  | cons a t ih =>
    by_cases ha : a.1 = key
    · rw [List.filter_cons_of_neg (by simp [ha]),
        List.find?_cons_of_neg _ (by simp [ha]; rintro rfl; exact h rfl)]
      exact ih
    · rw [List.filter_cons_of_pos (by simp [ha])]
      by_cases hp : a.1 = key'
      · rw [List.find?_cons_of_pos _ (by simp [hp]), List.find?_cons_of_pos _ (by simp [hp])]
      · rw [List.find?_cons_of_neg _ (by simp [hp]), List.find?_cons_of_neg _ (by simp [hp])]
        exact ih

theorem get_put_other (store : Store) (key key' : String × String) (rec : StoredRecord)
    (h : key' ≠ key) :
    get_item (put_item store key rec) key' = get_item store key' := by
  unfold get_item put_item
  rw [List.find?_cons_of_neg _ (by simp; rintro rfl; exact h rfl),
    find_filter_ne store key key' h]

theorem put_item_nodup (store : Store) (key : String × String) (rec : StoredRecord)
    (h : (store.map Prod.fst).Nodup) :
    ((put_item store key rec).map Prod.fst).Nodup := by
  unfold put_item
  rw [List.map_cons]
  refine List.nodup_cons.mpr ⟨?_, ?_⟩
  · intro hmem
    obtain ⟨e, he, hee⟩ := List.mem_map.mp hmem
    have hne := List.of_mem_filter he
    simp only [decide_eq_true_eq] at hne
    exact hne hee
  · exact ((List.filter_sublist _).map Prod.fst).nodup h

/-- Counterexample to claim C7 as stated: a store already holding a decided
poll record for `("#general", "2020-01-01")`.  Opening a poll again for that
key does not fail — `post_vote` stores via a bare DynamoDB `put_item`
(lines 173-180), which silently replaces the existing record. -/
theorem post_vote_overwrite_cex :
    get_item store0 ("#general", "2020-01-01") =
      some { msg := 111, choice := some "pizza", beeMsg := some 222 }
    ∧ (post_vote store0 "d" "#general" "2020-01-01" (some ("#general", 999))).2.result
        = .ok ()
    ∧ get_item (post_vote store0 "d" "#general" "2020-01-01" (some ("#general", 999))).1
        ("#general", "2020-01-01") =
      some { msg := 999, choice := none, beeMsg := none } :=
  ⟨rfl, rfl, rfl⟩

/-- Claim C7, amended — reopening a poll for an existing `(channel, date)` key
does not fail with a duplicate-poll error: it succeeds and silently replaces
the stored record (DynamoDB `put_item` semantics).  At most one record per
key still holds — a put preserves key uniqueness — and records under other
keys are untouched. -/
theorem post_vote_overwrite_semantics (store : Store)
    (hospitalDate channel today : String) (respCh : String) (respTs : Int)
    (hnodup : (store.map Prod.fst).Nodup) :
    (post_vote store hospitalDate channel today (some (respCh, respTs))).2.result = .ok ()
    ∧ get_item (post_vote store hospitalDate channel today (some (respCh, respTs))).1
        (respCh, today) = some { msg := respTs, choice := none, beeMsg := none }
    ∧ (((post_vote store hospitalDate channel today (some (respCh, respTs))).1).map
        Prod.fst).Nodup
    ∧ ∀ key : String × String, key ≠ (respCh, today) →
        get_item (post_vote store hospitalDate channel today (some (respCh, respTs))).1 key
          = get_item store key :=
  ⟨rfl, get_put_same store (respCh, today) _,
    put_item_nodup store (respCh, today) _ hnodup,
    fun key hk => get_put_other store (respCh, today) key _ hk⟩

/-- Witness for `post_vote_overwrite_semantics` on `store0` (whose single
key is trivially duplicate-free). -/
theorem post_vote_overwrite_semantics_witness :
    ((store0.map Prod.fst).Nodup)
    ∧ get_item (post_vote store0 "d" "#general" "2020-01-02" (some ("#general", 999))).1
        ("#general", "2020-01-02") = some { msg := 999, choice := none, beeMsg := none } :=
  ⟨by decide,
    (post_vote_overwrite_semantics store0 "d" "#general" "2020-01-02" "#general" 999
      (by decide)).2.1⟩

/-- Claim C8 — a tally on a reaction list containing the abort marker `bomb`
performs exactly the one reactions fetch and nothing else: it returns
silently, posts no message, and writes no record. -/
theorem check_abort_noop (k1 k2 : Nat) (now : Int) (hospitalDate channel today : String)
    (rec : StoredRecord) (reactions : List Reaction) (resp : Option (String × Int))
    (hbomb : ∃ r ∈ reactions, r.name = "bomb") :
    check k1 k2 now hospitalDate channel today (some rec) reactions resp =
      { result := .ok (), effects := [Effect.reactionsGet channel rec.msg] } := by
  have hb : reactions.any (fun r => r.name == "bomb") = true := by
    obtain ⟨r, hr, hname⟩ := hbomb
    exact List.any_eq_true.mpr ⟨r, hr, by simp [hname]⟩
  simp only [check, hb, if_true]

/-- Witness for `check_abort_noop`: an operator bomb next to a real vote. -/
theorem check_abort_noop_witness :
    (∃ r ∈ [({ name := "pizza", users := ["u1", "u2"], count := 3 } : Reaction),
        { name := "bomb", users := ["op"], count := 2 }], r.name = "bomb")
    ∧ check 0 0 1000 "d" "#general" "2020-01-01"
        (some { msg := 1000, choice := none, beeMsg := none })
        [{ name := "pizza", users := ["u1", "u2"], count := 3 },
         { name := "bomb", users := ["op"], count := 2 }] (some ("#general", 7)) =
      { result := .ok (), effects := [Effect.reactionsGet "#general" 1000] } :=
  ⟨by decide,
    check_abort_noop 0 0 1000 "d" "#general" "2020-01-01"
      { msg := 1000, choice := none, beeMsg := none }
      [{ name := "pizza", users := ["u1", "u2"], count := 3 },
       { name := "bomb", users := ["op"], count := 2 }] (some ("#general", 7))
      (by decide)⟩

/-- Claim C9 — evaluation at the failing input: the ledger member `w1`
(Alice, the *lowest* balance) has no entry in the Slack mapping table.
`slack_mapping` returns `None` through its chained `.get` calls — it never
raises `KeyError`, so the `except KeyError` handler in
`wbw_get_lowest_member` (lines 238-241) is unreachable and its
`warnings.warn` never fires.  The member is excluded *silently* and
processing continues with the remaining members. -/
theorem slack_mapping_miss_silent :
    slack_mapping [("w2", "u2")] "w1" = none
    ∧ joiningMembers [("w2", "u2")] {"u2"}
        [{ id := "w1", nickname := "Alice", balance := -100 },
         { id := "w2", nickname := "Bob", balance := 50 }] =
      [{ name := "Bob", balance := 50 }]
    ∧ wbw_get_lowest_member 0 [("w2", "u2")] {"u2"}
        [{ id := "w1", nickname := "Alice", balance := -100 },
         { id := "w2", nickname := "Bob", balance := 50 }] = .ok "Bob" :=
  ⟨rfl, by decide, by decide⟩

theorem votesOf_cons (a : Reaction) (t : List Reaction) :
    votesOf (a :: t) =
      if isEatReaction a.name && decide (a.count > 1) then
        { reaction := a.name, count := a.count } :: votesOf t
      else votesOf t := by
  unfold votesOf
  rw [List.filter_cons]
  split_ifs with hcond
  · rw [List.map_cons]
  · rfl

theorem namecount_any_eq {l l' : List Reaction}
    (h : l.map (fun r => (r.name, r.count)) = l'.map (fun r => (r.name, r.count))) :
    l.any (fun r => r.name == "bomb") = l'.any (fun r => r.name == "bomb") := by
  induction l generalizing l' with
  | nil =>
    cases l' with
    | nil => rfl
    | cons b t' => simp at h
  | cons a t ih =>
    cases l' with
    | nil => simp at h
    | cons b t' =>
      simp only [List.map_cons, List.cons.injEq] at h
      obtain ⟨hab, ht⟩ := h
      have hname : a.name = b.name := congrArg Prod.fst hab
      simp [List.any_cons, hname, ih ht]

theorem namecount_votesOf_eq {l l' : List Reaction}
    (h : l.map (fun r => (r.name, r.count)) = l'.map (fun r => (r.name, r.count))) :
    votesOf l = votesOf l' := by
  induction l generalizing l' with
  | nil =>
    cases l' with
    | nil => rfl
    | cons b t' => simp at h
  | cons a t ih =>
    cases l' with
    | nil => simp at h
    | cons b t' =>
      simp only [List.map_cons, List.cons.injEq] at h
      obtain ⟨hab, ht⟩ := h
      have hname : a.name = b.name := congrArg Prod.fst hab
      have hcount : a.count = b.count := congrArg Prod.snd hab
      rw [votesOf_cons, votesOf_cons, hname, hcount, ih ht]

theorem remindFinish_ledger (k3 : Nat) (channel : String) (info : OptionInfo)
    (base : String) (voted : Finset String) (table : List (String × String))
    (members : List WbwMember) (effs : List Effect) :
    Effect.ledgerFetch ∈
      (remindFinish k3 channel info base voted table members effs).effects := by
  unfold remindFinish
  split <;> simp

/-- Claim C10 — the tally never consults the ledger nor selects a payer:
`check` produces no ledger fetch; its outcome depends only on the reaction
names and counts (so the voter-identity set it builds from the user ids is
never used); every message it posts is the plain announcement built from the
option table — headline, instructions and, for the pay-in-advance types, the
bee join request, with no payer line; and whenever `remind` posts a message
the ledger has been consulted in that same invocation, so the payer is first
determined during the reminder. -/
theorem tally_never_selects_payer (k1 k2 : Nat) (now : Int)
    (hospitalDate channel today : String) (item : Option StoredRecord)
    (reactions : List Reaction) (resp : Option (String × Int)) :
    (Effect.ledgerFetch ∉
        (check k1 k2 now hospitalDate channel today item reactions resp).effects)
    ∧ (∀ reactions' : List Reaction,
        reactions.map (fun r => (r.name, r.count)) =
          reactions'.map (fun r => (r.name, r.count)) →
        check k1 k2 now hospitalDate channel today item reactions resp =
          check k1 k2 now hospitalDate channel today item reactions' resp)
    ∧ (∀ c t, Effect.postMessage c t ∈
          (check k1 k2 now hospitalDate channel today item reactions resp).effects →
        ∃ label info, lookupInfo hospitalDate label = some info ∧ t = tallyMessage info)
    ∧ (∀ (k3 : Nat) (beeReactions primReactions : List Reaction)
        (table : List (String × String)) (members : List WbwMember) (c t : String),
        Effect.postMessage c t ∈
          (remind k1 k2 k3 now hospitalDate channel item beeReactions primReactions
            table members).effects →
        Effect.ledgerFetch ∈
          (remind k1 k2 k3 now hospitalDate channel item beeReactions primReactions
            table members).effects) := by
  refine ⟨?_, ?_, ?_, ?_⟩
  · cases item with
    | none => simp [check]
    | some rec =>
      simp only [check]
      split
      · simp
      · split <;> try simp
        split <;> try simp
        split <;> simp
  · intro reactions' hmap
    cases item with
    | none => rfl
    | some rec =>
      simp only [check, namecount_any_eq hmap, namecount_votesOf_eq hmap]
  · cases item with
    | none => simp [check]
    | some rec =>
      intro c t
      simp only [check]
      split
      · simp
      · split
        · simp
        · rename_i choice heq
          split
          · simp
          · rename_i info hinfo
            split <;> intro hmem <;> simp at hmem
            · obtain ⟨rfl, rfl⟩ := hmem
              exact ⟨choice, info, hinfo, rfl⟩
            · obtain ⟨rfl, rfl⟩ := hmem
              exact ⟨choice, info, hinfo, rfl⟩
  · intro k3 beeReactions primReactions table members c t
    cases item with
    | none => simp [remind]
    | some rec =>
      simp only [remind]
      split
      · simp
      · split
        · simp
        · split
          · simp
          · split
            · split
              · intro h
                simp at h
              · intro _
                exact remindFinish_ledger ..
            · intro _
              exact remindFinish_ledger ..

/-- Witness for `tally_never_selects_payer`: changing only the reacting user
ids (not names or counts) leaves the tally outcome unchanged. -/
theorem tally_never_selects_payer_witness :
    check 0 0 1000 "d" "#general" "2020-01-01"
        (some { msg := 1000, choice := none, beeMsg := none })
        [{ name := "pizza", users := ["u1", "u2"], count := 3 }] (some ("#general", 7)) =
      check 0 0 1000 "d" "#general" "2020-01-01"
        (some { msg := 1000, choice := none, beeMsg := none })
        [{ name := "pizza", users := ["u9"], count := 3 }] (some ("#general", 7)) :=
  (tally_never_selects_payer 0 0 1000 "d" "#general" "2020-01-01"
    (some { msg := 1000, choice := none, beeMsg := none })
    [{ name := "pizza", users := ["u1", "u2"], count := 3 }] (some ("#general", 7))).2.1
    [{ name := "pizza", users := ["u9"], count := 3 }] (by decide)

end WAWET
